import Mathlib

/-!
Verification of the gallery preloader and lightbox viewer (src/gallery.js).

The JavaScript source is shallowly embedded: the preload cache becomes an
association list threaded explicitly; the asynchronous load of a resource is
resolved by an environment `loadOk : String → Bool` saying whether a given
source identifier loads successfully; promise resolution/rejection becomes
`Except LoadError Handle`; the DOM document state relevant to the overlay
(the set of `.preview-overlay` nodes and the document-level keydown handlers)
becomes an explicit `DomState`.
-/

namespace Gallery

/-! ## Media classification

The classification by extension appears at two places in the source:
line 12 (inside `PreloadManager.preload`) and line 159 (inside
`showProjectImages`).  Each occurrence is embedded separately so that their
agreement is a theorem rather than a modelling artefact. -/

/-- JavaScript `String.prototype.endsWith`: does the character sequence of
`s` end with that of `p`?  (Defined over the character lists because the
extern-backed `String.endsWith` of the Lean library does not reduce in the
kernel.) -/
def jsEndsWith (s p : String) : Bool :=
  List.isSuffixOf p.data s.data

/-- `src.endsWith(".mp4") || src.endsWith(".webm")`, gallery.js line 12. -/
def preloadIsVideo (src : String) : Bool :=
  jsEndsWith src ".mp4" || jsEndsWith src ".webm"

/-- `src.endsWith(".mp4") || src.endsWith(".webm")`, gallery.js line 159. -/
def showIsVideo (src : String) : Bool :=
  jsEndsWith src ".mp4" || jsEndsWith src ".webm"

/-! ## Preload cache (`PreloadManager`, gallery.js lines 2-57) -/

/-- A loaded media handle: the video or image element created by `preload`
(`document.createElement('video')` with `src` set, or `new Image()` with
`src` set). -/
inductive Handle
  | video (src : String)
  | image (src : String)
  deriving Repr, DecidableEq

/-- A load-failure error (`new Error(...)`). -/
structure LoadError where
  message : String
  deriving Repr, DecidableEq

/-- The cache `Map` of `PreloadManager`, as an association list in insertion
order. -/
abbrev Cache := List (String × Handle)

/-- `cache.get(src)` / `cache.has(src)` (has = the result is `some`). -/
def cacheGet (c : Cache) (src : String) : Option Handle :=
  match c with
  | [] => none
  | (k, v) :: rest => if k = src then some v else cacheGet rest src

/-- `cache.set(src, h)`: overwrite the binding if the key is present,
otherwise append it. -/
def cacheSet (c : Cache) (src : String) (h : Handle) : Cache :=
  match c with
  | [] => [(src, h)]
  | (k, v) :: rest => if k = src then (src, h) :: rest else (k, v) :: cacheSet rest src h

instance : DecidableEq (Except LoadError Handle) := fun a b =>
  match a, b with
  | .ok x, .ok y => if h : x = y then .isTrue (by rw [h]) else .isFalse (by simp [h])
  | .error x, .error y => if h : x = y then .isTrue (by rw [h]) else .isFalse (by simp [h])
  | .ok _, .error _ => .isFalse (by simp)
  | .error _, .ok _ => .isFalse (by simp)

/-- The observable outcome of one `preload(src)` call: the settled value of
the returned promise, the cache afterwards, and whether a new network load
was started (an element was created and its `src` attribute set). -/
structure PreloadStep where
  result : Except LoadError Handle
  cache : Cache
  startedLoad : Bool
  deriving Repr, DecidableEq

/-- `PreloadManager.preload(src)`, gallery.js lines 6-41.  If `src` is
cached the cached handle is returned at once and no load starts.  Otherwise
the identifier is classified by extension, the matching element is created
and loaded; on success (`onload` / `onloadeddata`) the handle is stored in
the cache and the promise resolves with it, on failure (`onerror`) the
promise rejects with `Failed to load video: ${src}` resp.
`Failed to load image: ${src}` and the cache is untouched. -/
def preload (loadOk : String → Bool) (c : Cache) (src : String) : PreloadStep :=
  match cacheGet c src with
  | some h => { result := .ok h, cache := c, startedLoad := false }
  | none =>
    if preloadIsVideo src then
      if loadOk src then
        { result := .ok (.video src)
          cache := cacheSet c src (.video src)
          startedLoad := true }
      else
        { result := .error ⟨"Failed to load video: " ++ src⟩
          cache := c
          startedLoad := true }
    else
      if loadOk src then
        { result := .ok (.image src)
          cache := cacheSet c src (.image src)
          startedLoad := true }
      else
        { result := .error ⟨"Failed to load image: " ++ src⟩
          cache := c
          startedLoad := true }

/-- `PreloadManager.preloadAll(sources)`, gallery.js lines 44-46:
`Promise.allSettled(sources.map(src => this.preload(src)))`.  The `map`
runs synchronously, so every `preload` call consults the cache as it is at
the start (the cache is only written in asynchronous load callbacks);
`allSettled` collects one settled outcome per input, in input order. -/
def preloadAll (loadOk : String → Bool) (c : Cache) (sources : List String) :
    List (Except LoadError Handle) :=
  sources.map (fun src => (preload loadOk c src).result)

/-! ## Cache helper lemmas -/

lemma cacheGet_cacheSet_self (c : Cache) (src : String) (h : Handle) :
    cacheGet (cacheSet c src h) src = some h := by
  induction c with
  | nil => simp [cacheSet, cacheGet]
  | cons kv rest ih =>
    obtain ⟨k, v⟩ := kv
    by_cases hk : k = src
    · simp [cacheSet, cacheGet, hk]
    · simp [cacheSet, cacheGet, hk, ih]

/-! ## Claim theorems: preload cache -/

/-- C7: media classification is the same total function at both use sites
(gallery.js lines 12 and 159): a source identifier is classified as video
iff it ends in `.mp4` or `.webm`, and as image otherwise. -/
theorem mediaClassification_consistent (src : String) :
    preloadIsVideo src = showIsVideo src ∧
    (preloadIsVideo src = true ↔
      (jsEndsWith src ".mp4" = true ∨ jsEndsWith src ".webm" = true)) := by
  refine ⟨rfl, ?_⟩
  simp [preloadIsVideo]

/-- C2: for an identifier already present in the cache, `preload` resolves
with the cached handle, starts no new load, and leaves the cache
unchanged. -/
theorem preload_cached (loadOk : String → Bool) (c : Cache) (src : String)
    (h : Handle) (hc : cacheGet c src = some h) :
    preload loadOk c src = { result := .ok h, cache := c, startedLoad := false } := by
  simp [preload, hc]

/-- Witness for `preload_cached` at a concrete cached identifier. -/
theorem preload_cached_witness :
    preload (fun _ => false) [("images/arch1.jpg", Handle.image "images/arch1.jpg")]
        "images/arch1.jpg" =
      { result := .ok (Handle.image "images/arch1.jpg")
        cache := [("images/arch1.jpg", Handle.image "images/arch1.jpg")]
        startedLoad := false } :=
  preload_cached (fun _ => false) _ "images/arch1.jpg" _ (by decide)

/-- C4: for a previously-unseen identifier, `preload` either resolves with a
loaded handle and stores the identifier in the cache, or rejects with a
load-failure error whose message carries the identifier and leaves the cache
unchanged (so a failed load never adds the identifier to the cache). -/
theorem preload_uncached (loadOk : String → Bool) (c : Cache) (src : String)
    (hc : cacheGet c src = none) :
    (∃ h, (preload loadOk c src).result = .ok h ∧
        cacheGet (preload loadOk c src).cache src = some h) ∨
    (∃ e, (preload loadOk c src).result = .error e ∧
        (∃ p, e.message = p ++ src) ∧
        (preload loadOk c src).cache = c ∧
        cacheGet (preload loadOk c src).cache src = none) := by
  by_cases hv : preloadIsVideo src = true <;> by_cases hok : loadOk src = true
  · exact Or.inl ⟨.video src, by simp [preload, hc, hv, hok, cacheGet_cacheSet_self]⟩
  · have hstep : preload loadOk c src =
        { result := .error ⟨"Failed to load video: " ++ src⟩
          cache := c, startedLoad := true } := by
      simp [preload, hc, hv, hok]
    exact Or.inr ⟨⟨"Failed to load video: " ++ src⟩, by rw [hstep],
      ⟨"Failed to load video: ", rfl⟩, by rw [hstep], by rw [hstep]; exact hc⟩
  · exact Or.inl ⟨.image src, by simp [preload, hc, hv, hok, cacheGet_cacheSet_self]⟩
  · have hstep : preload loadOk c src =
        { result := .error ⟨"Failed to load image: " ++ src⟩
          cache := c, startedLoad := true } := by
      simp [preload, hc, hv, hok]
    exact Or.inr ⟨⟨"Failed to load image: " ++ src⟩, by rw [hstep],
      ⟨"Failed to load image: ", rfl⟩, by rw [hstep], by rw [hstep]; exact hc⟩

/-- Witness for `preload_uncached` at a concrete uncached identifier. -/
theorem preload_uncached_witness :
    (∃ h, (preload (fun _ => true) [] "a.webm").result = .ok h ∧
        cacheGet (preload (fun _ => true) [] "a.webm").cache "a.webm" = some h) ∨
    (∃ e, (preload (fun _ => true) [] "a.webm").result = .error e ∧
        (∃ p, e.message = p ++ "a.webm") ∧
        (preload (fun _ => true) [] "a.webm").cache = [] ∧
        cacheGet (preload (fun _ => true) [] "a.webm").cache "a.webm" = none) :=
  preload_uncached (fun _ => true) [] "a.webm" (by decide)

/-- C3: `preloadAll` produces exactly one settled outcome per input
identifier (same length), and the outcome at each position is the outcome
of `preload` on the input identifier at that same position — so output
order matches input order and an individual failure never short-circuits
the rest. -/
theorem preloadAll_spec (loadOk : String → Bool) (c : Cache) (sources : List String) :
    (preloadAll loadOk c sources).length = sources.length ∧
    ∀ i : Nat, (preloadAll loadOk c sources)[i]? =
      (sources[i]?).map (fun src => (preload loadOk c src).result) := by
  refine ⟨by simp [preloadAll], ?_⟩
  intro i
  simp [preloadAll, List.getElem?_map]

/-! ## Overlay controller DOM model (`showPreview`, gallery.js lines 60-154)

Only the document state the claims observe is modelled: the list of
`.preview-overlay` nodes in the document (in document order) and the
document-level keydown listeners.  Each overlay instance gets a fresh
numeric identity so the two keydown handler closures created for it
(`overlay.escHandler`, `overlay.keyNavHandler`) can be told apart from
another overlay's. -/

/-- The two document-level keydown handlers an overlay attaches. -/
inductive HandlerKind
  | esc
  | keyNav
  deriving Repr, DecidableEq

/-- The visual/content state of an overlay node: class `loading` with the
spinner (initial), class `active` (after the load signal), or contents
replaced by an error message (`overlay.innerHTML = ...`). -/
inductive OverlayContent
  | loading
  | active
  | errorMsg (html : String)
  deriving Repr, DecidableEq

/-- One `.preview-overlay` DOM node: its identity, the source identifier it
shows, whether its content element is a video, and its content state. -/
structure OverlayNode where
  id : Nat
  src : String
  isVideo : Bool
  content : OverlayContent
  deriving Repr, DecidableEq

/-- The document state the overlay controller touches: overlay nodes present
in the document (in document order), attached document-level keydown
handlers (owning overlay identity paired with which of the two handlers),
and a supply of fresh overlay identities. -/
structure DomState where
  overlays : List OverlayNode
  handlers : List (Nat × HandlerKind)
  nextId : Nat
  deriving Repr, DecidableEq

/-- A document with no overlay and no overlay handlers. -/
def emptyDom : DomState := { overlays := [], handlers := [], nextId := 0 }

/-- The `cleanup` closure of an overlay (gallery.js lines 86-90): detach its
two document-level keydown handlers and remove its node from the
document.  The same three operations are performed on a pre-existing
overlay at the top of `showPreview` (lines 62-67). -/
def cleanup (s : DomState) (ovId : Nat) : DomState :=
  { s with
    handlers := s.handlers.filter (fun h => h.1 ≠ ovId)
    overlays := s.overlays.filter (fun o => o.id ≠ ovId) }

/-- `showPreview(src, isVideo)`, gallery.js lines 60-154.
`document.querySelector('.preview-overlay')` finds the first overlay node
in document order, if any; its two keydown handlers are detached and its
node removed.  Then a fresh overlay node is built in `loading` state, its
two keydown handlers are attached to the document, and the node is appended
to `document.body`. -/
def showPreview (s : DomState) (src : String) (isVideo : Bool) : DomState :=
  let s1 :=
    match s.overlays.head? with
    | some existing => cleanup s existing.id
    | none => s
  let ov : OverlayNode :=
    { id := s1.nextId, src := src, isVideo := isVideo, content := .loading }
  { overlays := s1.overlays ++ [ov]
    handlers := s1.handlers ++ [(ov.id, .esc), (ov.id, .keyNav)]
    nextId := s1.nextId + 1 }

/-- The bilingual failure markup assigned to `overlay.innerHTML` by the
content element's `onerror` handler (gallery.js lines 109-114). -/
def errorHtml (src : String) : String :=
  "\n            <div style=\"color: white; text-align: center;\">\n                加载失败，请重试<br>\n                <small style=\"opacity: 0.7;\">Failed to load: " ++
    src ++ "</small>\n            </div>\n        "

/-- The fixed delay (ms) after which the `onerror` handler schedules
`cleanup` (gallery.js line 115: `setTimeout(cleanup, 2000)`). -/
def contentErrorDelayMs : Nat := 2000

/-- The content element's `onerror` handler (gallery.js lines 108-116),
up to the scheduled `cleanup`: replaces the contents of the overlay it was
created for with the bilingual failure message for its source identifier. -/
def contentErrorHandler (s : DomState) (ovId : Nat) (src : String) : DomState :=
  { s with
    overlays := s.overlays.map (fun o =>
      if o.id = ovId then { o with content := .errorMsg (errorHtml src) } else o) }

/-- The document-state invariant of the overlay controller: at most one
overlay node is present, every attached overlay keydown handler belongs to
a present overlay, and all present overlay identities are stale relative to
the fresh-identity supply. -/
def DomInv (s : DomState) : Prop :=
  s.overlays.length ≤ 1 ∧
  (∀ h ∈ s.handlers, ∃ ov ∈ s.overlays, h.1 = ov.id) ∧
  (∀ ov ∈ s.overlays, ov.id < s.nextId)

instance (s : DomState) : Decidable (DomInv s) := by
  unfold DomInv
  infer_instance

/-! ## Claim theorems: overlay lifecycle -/

/-- C1: from any document state satisfying the overlay invariant,
`showPreview` removes any existing overlay node and detaches its two
keydown handlers before building the new overlay: afterwards exactly the
new overlay node is present, exactly the new overlay's two keydown handlers
(escape and arrow navigation, in that order) are attached, no prior
overlay's handler remains, and the invariant still holds. -/
theorem showPreview_single_overlay (s : DomState) (src : String) (isVideo : Bool)
    (hInv : DomInv s) :
    (showPreview s src isVideo).overlays =
      [{ id := s.nextId, src := src, isVideo := isVideo, content := .loading }] ∧
    (showPreview s src isVideo).handlers =
      [(s.nextId, HandlerKind.esc), (s.nextId, HandlerKind.keyNav)] ∧
    (∀ ov ∈ s.overlays, ∀ k : HandlerKind,
      (ov.id, k) ∉ (showPreview s src isVideo).handlers) ∧
    DomInv (showPreview s src isVideo) := by
  obtain ⟨hlen, hown, hfresh⟩ := hInv
  have hmain :
      (showPreview s src isVideo).overlays =
        [{ id := s.nextId, src := src, isVideo := isVideo, content := .loading }] ∧
      (showPreview s src isVideo).handlers =
        [(s.nextId, HandlerKind.esc), (s.nextId, HandlerKind.keyNav)] ∧
      (showPreview s src isVideo).nextId = s.nextId + 1 := by
    match hovs : s.overlays with
    | [] =>
      have hh : s.handlers = [] := by
        cases hhs : s.handlers with
        | nil => rfl
        | cons h t =>
          obtain ⟨ov, hov, _⟩ := hown h (by rw [hhs]; exact List.mem_cons_self h t)
          rw [hovs] at hov
          exact absurd hov (List.not_mem_nil ov)
      simp [showPreview, hovs, hh]
    | a :: t =>
      have ht : t = [] := by
        rw [hovs, List.length_cons] at hlen
        exact List.length_eq_zero.mp (by omega)
      subst ht
      simp only [showPreview, hovs, cleanup]
      simp
      intro n k hmem
      obtain ⟨ov, hov, heq⟩ := hown (n, k) hmem
      rw [hovs, List.mem_singleton] at hov
      subst hov
      exact heq
  refine ⟨hmain.1, hmain.2.1, ?_, ?_⟩
  · intro ov hov k
    rw [hmain.2.1]
    have := hfresh ov hov
    simp
    omega
  · refine ⟨by rw [hmain.1]; rfl, ?_, ?_⟩
    · intro h hmem
      rw [hmain.2.1] at hmem
      rw [hmain.1]
      simp at hmem
      rcases hmem with h1 | h1 <;> simp [h1]
    · intro ov hov
      rw [hmain.1] at hov
      rw [hmain.2.2]
      simp at hov
      simp [hov]

/-- Witness for `showPreview_single_overlay`: opening overlay #2 while
overlay #1 (with its two handlers) is open leaves exactly the new overlay
and exactly its two handlers. -/
theorem showPreview_single_overlay_witness :
    (showPreview
        { overlays := [{ id := 0, src := "images/arch1.jpg", isVideo := false,
                         content := .active }]
          handlers := [(0, .esc), (0, .keyNav)]
          nextId := 1 }
        "images/arch2.jpg" false).overlays =
      [{ id := 1, src := "images/arch2.jpg", isVideo := false, content := .loading }] ∧
    (showPreview
        { overlays := [{ id := 0, src := "images/arch1.jpg", isVideo := false,
                         content := .active }]
          handlers := [(0, .esc), (0, .keyNav)]
          nextId := 1 }
        "images/arch2.jpg" false).handlers =
      [(1, HandlerKind.esc), (1, HandlerKind.keyNav)] := by
  have h := showPreview_single_overlay
    { overlays := [{ id := 0, src := "images/arch1.jpg", isVideo := false,
                     content := .active }]
      handlers := [(0, .esc), (0, .keyNav)]
      nextId := 1 }
    "images/arch2.jpg" false (by decide)
  exact ⟨h.1, h.2.1⟩

/-- C8: when the content element of an overlay present in the document
fires its load-error signal, the overlay's contents are replaced by the
fixed bilingual failure message embedding the exact failed source
identifier, the scheduled removal delay is 2000 ms, and running the
scheduled `cleanup` removes that overlay node from the document and
detaches both of its keydown handlers. -/
theorem contentError_spec (s : DomState) (ov : OverlayNode) (hmem : ov ∈ s.overlays) :
    (∃ p q, errorHtml ov.src = p ++ ov.src ++ q) ∧
    { ov with content := .errorMsg (errorHtml ov.src) } ∈
      (contentErrorHandler s ov.id ov.src).overlays ∧
    contentErrorDelayMs = 2000 ∧
    (∀ o ∈ (cleanup (contentErrorHandler s ov.id ov.src) ov.id).overlays,
      o.id ≠ ov.id) ∧
    (∀ h ∈ (cleanup (contentErrorHandler s ov.id ov.src) ov.id).handlers,
      h.1 ≠ ov.id) := by
  refine ⟨⟨_, _, rfl⟩, ?_, rfl, ?_, ?_⟩
  · have : ({ ov with content := .errorMsg (errorHtml ov.src) } : OverlayNode) =
        (fun o => if o.id = ov.id then
          { o with content := OverlayContent.errorMsg (errorHtml ov.src) } else o) ov := by
      simp
    rw [this]
    exact List.mem_map_of_mem _ hmem
  · intro o ho
    have := List.of_mem_filter ho
    simpa using this
  · intro h hh
    have := List.of_mem_filter hh
    simpa using this

/-- Witness for `contentError_spec` on a concrete open overlay. -/
theorem contentError_spec_witness :
    (∃ p q, errorHtml "images/arch1.jpg" = p ++ "images/arch1.jpg" ++ q) ∧
    ({ id := 0, src := "images/arch1.jpg", isVideo := false,
       content := .errorMsg (errorHtml "images/arch1.jpg") } : OverlayNode) ∈
      (contentErrorHandler
        { overlays := [{ id := 0, src := "images/arch1.jpg", isVideo := false,
                         content := .loading }]
          handlers := [(0, .esc), (0, .keyNav)]
          nextId := 1 } 0 "images/arch1.jpg").overlays ∧
    contentErrorDelayMs = 2000 ∧
    (∀ o ∈ (cleanup (contentErrorHandler
        { overlays := [{ id := 0, src := "images/arch1.jpg", isVideo := false,
                         content := .loading }]
          handlers := [(0, .esc), (0, .keyNav)]
          nextId := 1 } 0 "images/arch1.jpg") 0).overlays, o.id ≠ 0) ∧
    (∀ h ∈ (cleanup (contentErrorHandler
        { overlays := [{ id := 0, src := "images/arch1.jpg", isVideo := false,
                         content := .loading }]
          handlers := [(0, .esc), (0, .keyNav)]
          nextId := 1 } 0 "images/arch1.jpg") 0).handlers, h.1 ≠ 0) :=
  contentError_spec
    { overlays := [{ id := 0, src := "images/arch1.jpg", isVideo := false,
                     content := .loading }]
      handlers := [(0, .esc), (0, .keyNav)]
      nextId := 1 }
    { id := 0, src := "images/arch1.jpg", isVideo := false, content := .loading }
    (by decide)

/-! ## Arrow-key navigation (`overlay.keyNavHandler`, gallery.js lines 133-144) -/

/-- JavaScript `Array.prototype.indexOf` on an array of strings, with the
running index carried as the JS number it is: the index of the first
occurrence, or `-1` when absent. -/
def jsIndexOfFrom (l : List String) (src : String) (k : Int) : Int :=
  match l with
  | [] => -1
  | x :: rest => if x = src then k else jsIndexOfFrom rest src (k + 1)

/-- `list.indexOf(src)`. -/
def jsIndexOf (l : List String) (src : String) : Int :=
  jsIndexOfFrom l src 0

/-- The index computation of `overlay.keyNavHandler` (gallery.js lines
133-144): on `ArrowLeft`/`ArrowRight` it computes
`(gallery.indexOf(src) + direction + gallery.length) % gallery.length`
(JavaScript `%` is the truncated remainder, `Int.tmod`) and passes it to
`showProjectImages`; any other key is ignored.  In the source the gallery
list is the free variable `archProjectImages` of the closure; it is taken
as a parameter here. -/
def keyNavHandlerNewIndex (gallery : List String) (src : String) (key : String) :
    Option Int :=
  if key = "ArrowLeft" ∨ key = "ArrowRight" then
    let direction : Int := if key = "ArrowLeft" then -1 else 1
    let currentIndex : Int := jsIndexOf gallery src
    some (Int.tmod (currentIndex + direction + gallery.length) gallery.length)
  else
    none

/-! ## Navigation arithmetic helper lemmas -/

lemma tmod_natCast (m n : Nat) :
    Int.tmod (m : Int) (n : Int) = ((m % n : Nat) : Int) := rfl

/-! ## Claim theorems: arrow-key navigation -/

/-- C5: when the shown source identifier sits at position `i` of the
gallery list of length `N`, an arrow-key event computes the new index as
`(i + direction + N) mod N` (direction `-1` for ArrowLeft, `+1` for
ArrowRight); in particular ArrowRight from the last index `N - 1` yields
index `0` and ArrowLeft from index `0` yields index `N - 1`. -/
theorem keyNav_wraps (gallery : List String) (src : String) (i : Nat)
    (hfind : jsIndexOf gallery src = (i : Int)) (hi : i < gallery.length) :
    keyNavHandlerNewIndex gallery src "ArrowRight" =
      some (((i + 1 + gallery.length) % gallery.length : Nat) : Int) ∧
    keyNavHandlerNewIndex gallery src "ArrowLeft" =
      some (((i + gallery.length - 1) % gallery.length : Nat) : Int) ∧
    (i = gallery.length - 1 →
      keyNavHandlerNewIndex gallery src "ArrowRight" = some 0) ∧
    (i = 0 →
      keyNavHandlerNewIndex gallery src "ArrowLeft" =
        some ((gallery.length - 1 : Nat) : Int)) := by
  have hN : 1 ≤ gallery.length := Nat.one_le_of_lt (Nat.lt_of_le_of_lt (Nat.zero_le i) hi)
  have hright : keyNavHandlerNewIndex gallery src "ArrowRight" =
      some (((i + 1 + gallery.length) % gallery.length : Nat) : Int) := by
    rw [keyNavHandlerNewIndex, if_pos (Or.inr rfl)]
    simp only [hfind]
    rw [if_neg (by decide)]
    have hcast : ((i : Int) + 1 + (gallery.length : Int)) =
        ((i + 1 + gallery.length : Nat) : Int) := by push_cast; ring
    rw [hcast, tmod_natCast]
  have hleft : keyNavHandlerNewIndex gallery src "ArrowLeft" =
      some (((i + gallery.length - 1) % gallery.length : Nat) : Int) := by
    rw [keyNavHandlerNewIndex, if_pos (Or.inl rfl)]
    simp only [hfind, ite_true, eq_self_iff_true]
    have hcast : ((i : Int) + -1 + (gallery.length : Int)) =
        ((i + gallery.length - 1 : Nat) : Int) := by omega
    rw [hcast, tmod_natCast]
  refine ⟨hright, hleft, ?_, ?_⟩
  · intro hlast
    rw [hright, hlast]
    have : (gallery.length - 1 + 1 + gallery.length) % gallery.length = 0 := by
      have h1 : gallery.length - 1 + 1 + gallery.length = 2 * gallery.length := by omega
      rw [h1]
      exact Nat.mul_mod_left 2 gallery.length
    rw [this]
    rfl
  · intro hzero
    rw [hleft, hzero]
    have : (0 + gallery.length - 1) % gallery.length = gallery.length - 1 := by
      rw [Nat.zero_add]
      exact Nat.mod_eq_of_lt (by omega)
    rw [this]

/-- Witness for `keyNav_wraps` on a concrete three-item gallery with the
shown identifier at position 1. -/
theorem keyNav_wraps_witness :
    keyNavHandlerNewIndex ["a.jpg", "b.jpg", "c.jpg"] "b.jpg" "ArrowRight" =
      some (((1 + 1 + 3) % 3 : Nat) : Int) ∧
    keyNavHandlerNewIndex ["a.jpg", "b.jpg", "c.jpg"] "b.jpg" "ArrowLeft" =
      some (((1 + 3 - 1) % 3 : Nat) : Int) ∧
    (1 = 3 - 1 →
      keyNavHandlerNewIndex ["a.jpg", "b.jpg", "c.jpg"] "b.jpg" "ArrowRight" = some 0) ∧
    (1 = 0 →
      keyNavHandlerNewIndex ["a.jpg", "b.jpg", "c.jpg"] "b.jpg" "ArrowLeft" =
        some ((3 - 1 : Nat) : Int)) := by
  have h := keyNav_wraps ["a.jpg", "b.jpg", "c.jpg"] "b.jpg" 1 (by decide) (by decide)
  simpa using h

/-- C10: when the shown source identifier is absent from the gallery list
(`indexOf` yields `-1`) and the list has length at least 2, the arrow
handler still computes a defined index: ArrowRight yields index `0` and
ArrowLeft yields index `N - 2`. -/
theorem keyNav_missing_src (gallery : List String) (src : String)
    (hmiss : jsIndexOf gallery src = -1) (hN : 2 ≤ gallery.length) :
    keyNavHandlerNewIndex gallery src "ArrowRight" = some 0 ∧
    keyNavHandlerNewIndex gallery src "ArrowLeft" =
      some ((gallery.length - 2 : Nat) : Int) := by
  constructor
  · rw [keyNavHandlerNewIndex, if_pos (Or.inr rfl)]
    simp only [hmiss]
    rw [if_neg (by decide)]
    have hcast : (-1 + 1 + (gallery.length : Int)) = ((gallery.length : Nat) : Int) := by
      ring
    rw [hcast, tmod_natCast, Nat.mod_self]
    rfl
  · rw [keyNavHandlerNewIndex, if_pos (Or.inl rfl)]
    simp only [hmiss, ite_true, eq_self_iff_true]
    have hcast : (-1 + -1 + (gallery.length : Int)) =
        ((gallery.length - 2 : Nat) : Int) := by
      omega
    rw [hcast, tmod_natCast, Nat.mod_eq_of_lt (by omega)]

/-- Witness for `keyNav_missing_src` on a concrete two-item gallery and an
identifier not in it. -/
theorem keyNav_missing_src_witness :
    keyNavHandlerNewIndex ["a.jpg", "b.jpg"] "z.jpg" "ArrowRight" = some 0 ∧
    keyNavHandlerNewIndex ["a.jpg", "b.jpg"] "z.jpg" "ArrowLeft" =
      some ((2 - 2 : Nat) : Int) := by
  have h := keyNav_missing_src ["a.jpg", "b.jpg"] "z.jpg" (by decide) (by decide)
  simpa using h

/-! ## Navigation entry point (`showProjectImages`, gallery.js lines 157-172) -/

/-- JavaScript indexing `list[i]` on an array of strings with an integer
index: the element when `0 <= i < list.length`, otherwise `undefined`
(here `none`). -/
def jsGetElem (l : List String) (i : Int) : Option String :=
  if 0 ≤ i then l[i.toNat]? else none

/-- A thrown JavaScript exception. -/
inductive JsError
  | typeError (message : String)
  deriving Repr, DecidableEq

/-- The observable outcome of a `showProjectImages` call: the document state
after the overlay is (re)built, the preload cache once the opportunistic
background preload has settled, and the console warnings emitted by its
rejection handler. -/
structure NavResult where
  dom : DomState
  cache : Cache
  warnings : List String
  deriving Repr, DecidableEq

/-- `showProjectImages(index, images)`, gallery.js lines 157-172.
`const src = images[index]` yields `undefined` for an out-of-range index, so
the following `src.endsWith(".mp4")` throws a TypeError.  Otherwise the item
is shown via `showPreview` and, unless `(index + 1) % images.length` equals
`index` (a one-item list), the next item is preloaded in the background with
a rejection handler that only logs `Failed to preload: $\x7bnextSrc\x7d`.
(Were `images[nextIndex]` `undefined`, `preload(undefined)` would throw
inside the promise executor, rejecting the promise into the same logging
handler; with an in-range `index` that branch is unreachable.) -/
def showProjectImages (loadOk : String → Bool) (dom : DomState) (c : Cache)
    (index : Int) (images : List String) : Except JsError NavResult :=
  match jsGetElem images index with
  | none => .error (.typeError "Cannot read properties of undefined (reading endsWith)")
  | some src =>
    let isVideo := showIsVideo src
    let dom1 := showPreview dom src isVideo
    let nextIndex : Int := Int.tmod (index + 1) images.length
    if nextIndex ≠ index then
      match jsGetElem images nextIndex with
      | some nextSrc =>
        let step := preload loadOk c nextSrc
        match step.result with
        | .ok _ => .ok { dom := dom1, cache := step.cache, warnings := [] }
        | .error _ =>
          .ok { dom := dom1, cache := step.cache
                warnings := ["Failed to preload: " ++ nextSrc] }
      | none =>
        .ok { dom := dom1, cache := c, warnings := ["Failed to preload: undefined"] }
    else
      .ok { dom := dom1, cache := c, warnings := [] }

/-- The fixed built-in gallery list `archProjectImages`
(gallery.js lines 189-390). -/
def archProjectImages : List String := [
  "images/arch1.jpg",
  "images/arch2.jpg",
  "images/arch3.jpg",
  "images/arch4.jpg",
  "images/arch5.jpg",
  "images/arch6.jpg",
  "images/arch7.jpg",
  "images/arch8.jpg",
  "images/arch9.jpg",
  "images/arch10.jpg",
  "images/arch11.jpg",
  "images/arch12.jpg",
  "images/arch13.jpg",
  "images/arch14.jpg",
  "images/arch15.jpg",
  "images/arch16.jpg",
  "images/arch17.jpg",
  "images/arch18.jpg",
  "images/arch19.jpg",
  "images/arch20.jpg",
  "images/arch21.jpg",
  "images/arch22.jpg",
  "images/arch23.jpg",
  "images/arch24.jpg",
  "images/arch25.jpg",
  "images/arch26.jpg",
  "images/arch27.jpg",
  "images/arch28.jpg",
  "images/arch29.jpg",
  "images/arch30.jpg",
  "images/arch31.jpg",
  "images/arch32.jpg",
  "images/arch33.jpg",
  "images/arch34.jpg",
  "images/arch35.jpg",
  "images/arch36.jpg",
  "images/arch37.jpg",
  "images/arch38.jpg",
  "images/arch39.jpg",
  "images/arch40.jpg",
  "images/arch41.jpg",
  "images/arch42.jpg",
  "images/arch43.jpg",
  "images/arch44.jpg",
  "images/arch45.jpg",
  "images/arch46.jpg",
  "images/arch47.jpg",
  "images/arch48.jpg",
  "images/arch49.jpg",
  "images/arch50.jpg",
  "images/arch51.jpg",
  "images/arch52.jpg",
  "images/arch53.jpg",
  "images/arch54.jpg",
  "images/arch55.jpg",
  "images/arch56.jpg",
  "images/arch57.jpg",
  "images/arch58.jpg",
  "images/arch59.jpg",
  "images/arch60.jpg",
  "images/arch61.jpg",
  "images/arch62.jpg",
  "images/arch63.jpg",
  "images/arch64.jpg",
  "images/arch65.jpg",
  "images/arch66.jpg",
  "images/arch67.jpg",
  "images/arch68.jpg",
  "images/arch69.jpg",
  "images/arch70.jpg",
  "images/arch71.jpg",
  "images/arch72.jpg",
  "images/arch73.jpg",
  "images/arch74.jpg",
  "images/arch75.jpg",
  "images/arch76.jpg",
  "images/arch77.jpg",
  "images/arch78.jpg",
  "images/arch79.jpg",
  "images/arch80.jpg",
  "images/arch81.jpg",
  "images/arch82.jpg",
  "images/arch83.jpg",
  "images/arch84.jpg",
  "images/arch85.jpg",
  "images/arch86.jpg",
  "images/arch87.jpg",
  "images/arch88.jpg",
  "images/arch89.jpg",
  "images/arch90.jpg",
  "images/arch91.jpg",
  "images/arch92.jpg",
  "images/arch93.jpg",
  "images/arch94.jpg",
  "images/arch95.jpg",
  "images/arch96.jpg",
  "images/arch97.jpg",
  "images/arch98.jpg",
  "images/arch99.jpg",
  "images/arch100.jpg",
  "images/arch101.jpg",
  "images/arch102.jpg",
  "images/arch103.jpg",
  "images/arch104.jpg",
  "images/arch105.jpg",
  "images/arch106.jpg",
  "images/arch107.jpg",
  "images/arch108.jpg",
  "images/arch109.jpg",
  "images/arch110.jpg",
  "images/arch111.jpg",
  "images/arch112.jpg",
  "images/arch113.jpg",
  "images/arch114.jpg",
  "images/arch115.jpg",
  "images/arch116.jpg",
  "images/arch117.jpg",
  "images/arch118.jpg",
  "images/arch119.jpg",
  "images/arch120.jpg",
  "images/arch121.jpg",
  "images/arch122.jpg",
  "images/arch123.jpg",
  "images/arch124.jpg",
  "images/arch125.jpg",
  "images/arch126.jpg",
  "images/arch127.jpg",
  "images/arch128.jpg",
  "images/arch129.jpg",
  "images/arch130.jpg",
  "images/arch131.jpg",
  "images/arch132.jpg",
  "images/arch133.jpg",
  "images/arch134.jpg",
  "images/arch135.jpg",
  "images/arch136.jpg",
  "images/arch137.jpg",
  "images/arch138.jpg",
  "images/arch139.jpg",
  "images/arch140.jpg",
  "images/arch141.jpg",
  "images/arch142.jpg",
  "images/arch143.jpg",
  "images/arch144.jpg",
  "images/arch145.jpg",
  "images/arch146.jpg",
  "images/arch147.jpg",
  "images/arch148.jpg",
  "images/arch149.jpg",
  "images/arch150.jpg",
  "images/arch151.jpg",
  "images/arch152.jpg",
  "images/arch153.jpg",
  "images/arch154.jpg",
  "images/arch155.jpg",
  "images/arch156.jpg",
  "images/arch157.jpg",
  "images/arch158.jpg",
  "images/arch159.jpg",
  "images/arch160.jpg",
  "images/arch161.jpg",
  "images/arch162.jpg",
  "images/arch163.jpg",
  "images/arch164.jpg",
  "images/arch165.jpg",
  "images/arch166.jpg",
  "images/arch167.jpg",
  "images/arch168.jpg",
  "images/arch169.jpg",
  "images/arch170.jpg",
  "images/arch171.jpg",
  "images/arch172.jpg",
  "images/arch173.jpg",
  "images/arch174.jpg",
  "images/arch175.jpg",
  "images/arch176.jpg",
  "images/arch177.jpg",
  "images/arch178.jpg",
  "images/arch179.jpg",
  "images/arch180.jpg",
  "images/arch181.jpg",
  "images/arch182.jpg",
  "images/arch183.jpg",
  "images/arch184.jpg",
  "images/arch185.jpg",
  "images/arch186.jpg",
  "images/arch187.jpg",
  "images/arch188.jpg",
  "images/arch189.jpg",
  "images/arch190.jpg",
  "images/arch191.jpg",
  "images/arch192.jpg",
  "images/arch193.jpg",
  "images/arch194.jpg",
  "images/arch195.jpg",
  "images/arch196.jpg",
  "images/arch197.jpg",
  "images/arch198.jpg",
  "images/arch199.jpg",
  "images/arch200.jpg"]

/-- `window.showArchProjectImages = function(index)` (gallery.js lines
397-399): `showProjectImages(index, archProjectImages)`. -/
def showArchProjectImages (loadOk : String → Bool) (dom : DomState) (c : Cache)
    (index : Int) : Except JsError NavResult :=
  showProjectImages loadOk dom c index archProjectImages

/-! ## Claim theorems: navigation entry point -/

lemma archProjectImages_length : archProjectImages.length = 200 := rfl

/-- C6 counterexample: `showArchProjectImages(200)` — one past the end of
the 200-item built-in gallery list — throws an uncaught TypeError instead
of degrading to a warning or an in-overlay message: `images[200]` is
`undefined`, so `src.endsWith(".mp4")` raises. -/
theorem showArchProjectImages_oob_throws :
    showArchProjectImages (fun _ => true) emptyDom [] 200 =
      .error (.typeError "Cannot read properties of undefined (reading endsWith)") := by
  unfold showArchProjectImages showProjectImages
  have hnone : jsGetElem archProjectImages 200 = none := by
    unfold jsGetElem
    rw [if_pos (by decide)]
    exact List.getElem?_eq_none (by rw [archProjectImages_length]; decide)
  rw [hnone]

/-- C6 (amended): for every index inside the bounds of the built-in
gallery list, `showArchProjectImages` returns normally — no exception
escapes, every failure on these paths at most produces a console warning
or the in-overlay error state.  (An out-of-bounds index throws a
TypeError; see the counterexample.) -/
theorem showArchProjectImages_inbounds_no_throw (loadOk : String → Bool)
    (dom : DomState) (c : Cache) (index : Int)
    (h0 : 0 ≤ index) (hlt : index < 200) :
    ∃ r, showArchProjectImages loadOk dom c index = .ok r := by
  unfold showArchProjectImages showProjectImages
  have hget : ∃ src, jsGetElem archProjectImages index = some src := by
    unfold jsGetElem
    rw [if_pos h0]
    have hi : index.toNat < archProjectImages.length := by
      rw [archProjectImages_length]
      omega
    exact ⟨_, List.getElem?_eq_getElem hi⟩
  obtain ⟨src, hsrc⟩ := hget
  rw [hsrc]
  dsimp only
  split
  · split
    · split
      · exact ⟨_, rfl⟩
      · exact ⟨_, rfl⟩
    · exact ⟨_, rfl⟩
  · exact ⟨_, rfl⟩

/-- Witness for `showArchProjectImages_inbounds_no_throw` at index 0. -/
theorem showArchProjectImages_inbounds_no_throw_witness :
    ∃ r, showArchProjectImages (fun _ => true) emptyDom [] 0 = .ok r :=
  showArchProjectImages_inbounds_no_throw (fun _ => true) emptyDom [] 0
    (by decide) (by decide)

/-- C9 counterexample: on the one-item list `["a.jpg"]` at index 0, in an
environment where every load fails, the claim would have `preload` invoked
on the item at position `(0 + 1) % 1 = 0` and its failure logged as a
warning; but the code skips the preload entirely (the `nextIndex !== index`
guard), so the call returns with no warning and an untouched cache even
though a `preload` of that item would have failed. -/
theorem showProjectImages_single_item_no_preload :
    showProjectImages (fun _ => false) emptyDom [] 0 ["a.jpg"] =
      .ok { dom := showPreview emptyDom "a.jpg" false, cache := [], warnings := [] } ∧
    (preload (fun _ => false) [] "a.jpg").result =
      .error ⟨"Failed to load image: a.jpg"⟩ := by
  constructor <;> rfl

/-- C9 (amended): for a valid index `i` into `images`, `showProjectImages`
shows `images[i]` via the overlay controller (classified by extension) and,
whenever the wrapped next position `(i + 1) % images.length` differs from
`i` (that is, the list has at least two items), preloads the item at that
position; a failure of that background preload is recorded only as the
console warning `Failed to preload: ...` and is not propagated — the call
returns normally either way.  For a one-item list no background preload is
started. -/
theorem showProjectImages_navigates (loadOk : String → Bool) (dom : DomState)
    (c : Cache) (images : List String) (i : Nat) (src : String)
    (hsrc : images[i]? = some src) :
    ((i + 1) % images.length ≠ i →
      ∀ nextSrc, images[(i + 1) % images.length]? = some nextSrc →
        showProjectImages loadOk dom c (i : Int) images =
          .ok { dom := showPreview dom src (showIsVideo src)
                cache := (preload loadOk c nextSrc).cache
                warnings :=
                  match (preload loadOk c nextSrc).result with
                  | .ok _ => []
                  | .error _ => ["Failed to preload: " ++ nextSrc] }) ∧
    ((i + 1) % images.length = i →
      showProjectImages loadOk dom c (i : Int) images =
        .ok { dom := showPreview dom src (showIsVideo src), cache := c
              warnings := [] }) := by
  have h1 : jsGetElem images (i : Int) = some src := by
    unfold jsGetElem
    rw [if_pos (Int.ofNat_nonneg i), Int.toNat_natCast]
    exact hsrc
  have htm : Int.tmod ((i : Int) + 1) (images.length : Int) =
      (((i + 1) % images.length : Nat) : Int) := by
    have hc1 : ((i : Int) + 1) = ((i + 1 : Nat) : Int) := by push_cast; ring
    rw [hc1, tmod_natCast]
  constructor
  · intro hne nextSrc hnext
    have h2 : jsGetElem images (((i + 1) % images.length : Nat) : Int) =
        some nextSrc := by
      unfold jsGetElem
      rw [if_pos (Int.ofNat_nonneg _), Int.toNat_natCast]
      exact hnext
    unfold showProjectImages
    rw [h1]
    dsimp only
    rw [htm, if_pos (by exact_mod_cast hne), h2]
    dsimp only
    cases hres : (preload loadOk c nextSrc).result with
    | ok h => rfl
    | error e => rfl
  · intro heq
    unfold showProjectImages
    rw [h1]
    dsimp only
    rw [htm, if_neg (by simp [heq])]

/-- Witness for `showProjectImages_navigates` on a concrete two-item list
whose second item fails to load. -/
theorem showProjectImages_navigates_witness :
    showProjectImages (fun _ => false) emptyDom [] ((0 : Nat) : Int)
        ["a.jpg", "b.jpg"] =
      .ok { dom := showPreview emptyDom "a.jpg" (showIsVideo "a.jpg")
            cache := (preload (fun _ => false) [] "b.jpg").cache
            warnings :=
              match (preload (fun _ => false) [] "b.jpg").result with
              | .ok _ => []
              | .error _ => ["Failed to preload: " ++ "b.jpg"] } :=
  (showProjectImages_navigates (fun _ => false) emptyDom [] ["a.jpg", "b.jpg"]
    0 "a.jpg" (by decide)).1 (by decide) "b.jpg" (by decide)

end Gallery
